import Mathlib

/-!
Shallow embedding of the door-to-door routing core of the repository
(src/routing/generalizedCost.js, search.js, graph.js, transfers.js,
apiCache.js) together with theorems settling the frozen claims.

Modelling conventions, used throughout:

* JavaScript numbers are modelled as real numbers (`ℝ`).  A JavaScript
  numeric expression whose value can be `NaN` (because one operand is
  `undefined`) is modelled as `Option ℝ` (`JsNum`), with `none` standing
  for `NaN`/`undefined`; the helper operations `jsAdd`, `jsSub`, ... are
  `none`-propagating, and every `NaN` comparison is `false`, exactly as
  in IEEE/JS semantics.  Division only ever occurs with nonzero literal
  denominators (60000, 60, 700, ...), so `x / 0` never arises.
* ISO-8601 timestamp strings are modelled directly as their epoch value
  in milliseconds (a real number); `Date.parse` is then the identity.
  `minutesBetween` performs the same arithmetic as the source.
* JavaScript property access on a possibly `undefined` object throws a
  `TypeError`; code paths that can throw are embedded in
  `Except JsError`.  Property access of a field that no record of the
  program ever carries (for example `edge_leg.destination_lat`: the
  database schema has `from_node_id`/`to_node_id` and the transfer
  generators set neither) is modelled by a function that returns the
  `undefined`/`none` value.
* `node.id` values flowing through the search can be a number, `null`
  (unpersisted synthetic address nodes) or `undefined` (reads of absent
  fields); they are modelled by `JsId`, and `===` / `== null` by
  `jsIdEq` / `isLooseNull`.
* Wall-clock reads (`Date.now()`, `new Date()`) are modelled by
  explicit parameters: `now` is the clock at search start, and
  `elapsedMs k` is the elapsed time observed at the k-th loop check.
  The transfer generators receive the generation clock as a parameter.
-/

noncomputable section

/-! ## JavaScript value helpers -/

/-- A JavaScript id value: a number, `null`, or `undefined`. -/
inductive JsId where
  | num : ℤ → JsId
  | null : JsId
  | undef : JsId
deriving DecidableEq

/-- JavaScript strict equality `===` on id values. -/
def jsIdEq (a b : JsId) : Bool := decide (a = b)

/-- JavaScript loose test `x == null`, true for both `null` and `undefined`. -/
def isLooseNull : JsId → Bool
  | .num _ => false
  | .null => true
  | .undef => true

/-- A JavaScript number that may be `NaN` (or originate from `undefined`). -/
abbrev JsNum := Option ℝ

/-- NaN-propagating addition. -/
def jsAdd : JsNum → JsNum → JsNum
  | some x, some y => some (x + y)
  | _, _ => none

/-- NaN-propagating subtraction. -/
def jsSub : JsNum → JsNum → JsNum
  | some x, some y => some (x - y)
  | _, _ => none

/-- NaN-propagating multiplication. -/
def jsMul : JsNum → JsNum → JsNum
  | some x, some y => some (x * y)
  | _, _ => none

/-- NaN-propagating division (used only with nonzero literal denominators). -/
def jsDiv : JsNum → JsNum → JsNum
  | some x, some y => some (x / y)
  | _, _ => none

/-- Math.sqrt: NaN on NaN input and on negative input. -/
def jsSqrt : JsNum → JsNum
  | some x => if 0 ≤ x then some (Real.sqrt x) else none
  | none => none

/-- Comparison `a <= b`; any comparison involving NaN is false. -/
def jsLeB : JsNum → JsNum → Bool
  | some x, some y => if x ≤ y then true else false
  | _, _ => false

/-- Comparison `a < b`; any comparison involving NaN is false. -/
def jsLtB : JsNum → JsNum → Bool
  | some x, some y => if x < y then true else false
  | _, _ => false

/-- Comparison `a >= b`; any comparison involving NaN is false. -/
def jsGeB : JsNum → JsNum → Bool
  | some x, some y => if y ≤ x then true else false
  | _, _ => false

/-- Comparison `a > b`; any comparison involving NaN is false. -/
def jsGtB : JsNum → JsNum → Bool
  | some x, some y => if y < x then true else false
  | _, _ => false

/-- The guarded comparison `best !== null && a >= best` used by the pruning
and best-cost logic: `b` is the possibly-`null` best cost. -/
def jsGeOpt (a : JsNum) (b : Option JsNum) : Bool :=
  match b with
  | none => false
  | some bv => jsGeB a bv

/-- JavaScript errors that the embedded code can throw. -/
inductive JsError where
  | typeError : JsError
deriving DecidableEq

/-! ## Data model records

Fields are restricted to those the embedded code reads or constructs.
`Option` marks fields that are present on some records and absent
(`undefined`) on others: the database `edge_leg` rows carry
`from_node_id`/`to_node_id` while the synthesized transfer edges from
transfers.js carry neither. -/

/-- A persisted location_node row (id INTEGER NOT NULL, lat, lon REAL NOT NULL). -/
structure Node where
  id : ℤ
  lat : ℝ
  lon : ℝ

/-- A node as carried inside a place spec produced by normalizePlaceSpec:
persisted nodes have a numeric id, synthetic address nodes have id null. -/
structure SpecNode where
  id : JsId
  lat : ℝ
  lon : ℝ

/-- An edge_leg record: either a persisted row (which has
`from_node_id`/`to_node_id`) or a synthesized transfer edge from
transfers.js (which has neither). -/
structure Edge where
  mode : String
  is_transfer : ℤ
  distance_km : Option ℝ
  duration_min : ℝ
  co_located : ℤ
  structure_type : String
  from_node_id : Option ℤ
  to_node_id : Option ℤ

/-- The search reads `edge_leg.destination_node_id` (search.js line 377), a
property that no edge record carries — the schema columns are
`from_node_id`/`to_node_id` and the transfer generators set neither — so
in JavaScript the read yields `undefined`. -/
def Edge.destinationNodeIdRead (_ : Edge) : JsId := JsId.undef

/-- shouldPrune reads `nextLeg.edge_leg.destination_lat`, a property no edge
record carries; the read yields `undefined` (NaN once used in arithmetic). -/
def Edge.destinationLatRead (_ : Edge) : JsNum := none

/-- shouldPrune reads `nextLeg.edge_leg.destination_lon`; same situation as
`Edge.destinationLatRead`. -/
def Edge.destinationLonRead (_ : Edge) : JsNum := none

/-- An offer record (persisted row or synthesized by transfers.js).
Timestamps are epoch milliseconds; `price_total` is `none` when null. -/
structure Offer where
  departure_time_utc : ℝ
  arrival_time_utc : ℝ
  price_total : Option ℝ
  currency : String
  source_type : String
  is_static : ℤ
  retrieval_time_utc : ℝ
  validity_window_hrs : Option ℝ
  ttl_hrs : Option ℝ

/-- A timed arc of the assembled adjacency: an { edge_leg, offer } pair. -/
structure Arc where
  edge_leg : Edge
  offer : Offer

/-- A place spec returned by normalizePlaceSpec: exactly one of the three
tags is set in the source; absent tags are falsy, modelled as `false`. -/
structure PlaceSpec where
  isAddress : Bool
  isArea : Bool
  isHotelQuery : Bool
  nodes : List SpecNode

/-- Search parameters.  In the source each function applies destructuring
defaults when a field is absent; the embedded functions take the full
record and `defaultParams` carries the source defaults. -/
structure Params where
  maxExpansions : ℕ
  timeoutMs : ℝ
  timeValuePerHour : ℝ
  transferPenalty : ℝ
  maxDetourFactor : ℝ
  riskPenalty : ℝ

/-- The source defaults: maxExpansions 100000, timeoutMs 5000,
timeValuePerHour 20, transferPenalty 6, maxDetourFactor 2.2, riskPenalty 0. -/
def defaultParams : Params :=
  { maxExpansions := 100000
    timeoutMs := 5000
    timeValuePerHour := 20
    transferPenalty := 6
    maxDetourFactor := 2.2
    riskPenalty := 0 }

/-! ## transfers.js -/

/-- JavaScript Math.atan2(y, x), by the usual case split on the quadrant.
Only the branch 0 < x is exercised by the proofs below. -/
def atan2 (y x : ℝ) : ℝ :=
  if 0 < x then Real.arctan (y / x)
  else if x < 0 ∧ 0 ≤ y then Real.arctan (y / x) + Real.pi
  else if x < 0 then Real.arctan (y / x) - Real.pi
  else if x = 0 ∧ 0 < y then Real.pi / 2
  else if x = 0 ∧ y < 0 then -(Real.pi / 2)
  else 0

/-- Haversine distance in km (transfers.js). -/
def haversine (lat1 lon1 lat2 lon2 : ℝ) : ℝ :=
  let R : ℝ := 6371
  let toRad : ℝ → ℝ := fun d => d * Real.pi / 180
  let dLat := toRad (lat2 - lat1)
  let dLon := toRad (lon2 - lon1)
  let a := Real.sin (dLat / 2) ^ 2 +
    Real.cos (toRad lat1) * Real.cos (toRad lat2) * Real.sin (dLon / 2) ^ 2
  R * 2 * atan2 (Real.sqrt a) (Real.sqrt (1 - a))

/-- JavaScript Math.round: round half towards positive infinity. -/
def jsRound (x : ℝ) : ℝ := ((⌊x + 1 / 2⌋ : ℤ) : ℝ)

/-- The default rideshare cost model of types.js. -/
structure RideshareModel where
  base_fare : ℝ
  per_km : ℝ
  per_min : ℝ
  avg_speed_kmh : ℝ
  surge_coeff : ℝ

/-- DEFAULT_RIDESHARE_MODEL from types.js. -/
def defaultRideshareModel : RideshareModel :=
  { base_fare := 3, per_km := 1.25, per_min := 0.25, avg_speed_kmh := 35, surge_coeff := 1 }

/-- Options of generateShuttleTransfer (defaults flat_price 12, speed 25). -/
structure ShuttleOpts where
  flat_price : ℝ
  avg_speed_kmh : ℝ

/-- The default shuttle options of transfers.js. -/
def shuttleDefaults : ShuttleOpts := { flat_price := 12, avg_speed_kmh := 25 }

/-- generateWalkTransfer (transfers.js).  `now` is the generation clock
(`new Date()`); the synthesized edge carries no endpoint ids. -/
def generateWalkTransfer (originNode destNode : Node) (now : ℝ) : Arc :=
  let distanceKm := haversine originNode.lat originNode.lon destNode.lat destNode.lon
  let durationMin := max 3 (jsRound (distanceKm / 5 * 60))
  { edge_leg :=
      { mode := "walk", is_transfer := 1, distance_km := some distanceKm,
        duration_min := durationMin, co_located := if distanceKm < 0.3 then 1 else 0,
        structure_type := "static", from_node_id := none, to_node_id := none }
    offer :=
      { departure_time_utc := now, arrival_time_utc := now + durationMin * 60000,
        price_total := some 0, currency := "USD", source_type := "manual_static",
        is_static := 1, retrieval_time_utc := now,
        validity_window_hrs := some 9999, ttl_hrs := none } }

/-- generateRideshareTransfer (transfers.js); `model` is the options record
after merging with DEFAULT_RIDESHARE_MODEL. -/
def generateRideshareTransfer (originNode destNode : Node) (model : RideshareModel)
    (now : ℝ) : Arc :=
  let distanceKm := haversine originNode.lat originNode.lon destNode.lat destNode.lon
  let durationMin := max 5 (jsRound (distanceKm / model.avg_speed_kmh * 60))
  let price := jsRound
    ((model.base_fare + model.per_km * distanceKm + model.per_min * durationMin) *
      model.surge_coeff * 100) / 100
  { edge_leg :=
      { mode := "rideshare", is_transfer := 1, distance_km := some distanceKm,
        duration_min := durationMin, co_located := if distanceKm < 0.3 then 1 else 0,
        structure_type := "dynamic_template", from_node_id := none, to_node_id := none }
    offer :=
      { departure_time_utc := now, arrival_time_utc := now + durationMin * 60000,
        price_total := some price, currency := "USD", source_type := "estimated_model",
        is_static := 0, retrieval_time_utc := now,
        validity_window_hrs := none, ttl_hrs := some 1 } }

/-- generateShuttleTransfer (transfers.js). -/
def generateShuttleTransfer (originNode destNode : Node) (opts : ShuttleOpts)
    (now : ℝ) : Arc :=
  let distanceKm := haversine originNode.lat originNode.lon destNode.lat destNode.lon
  let durationMin := jsRound (distanceKm / opts.avg_speed_kmh * 60)
  let price := opts.flat_price
  { edge_leg :=
      { mode := "shuttle", is_transfer := 1, distance_km := some distanceKm,
        duration_min := durationMin, co_located := if distanceKm < 0.3 then 1 else 0,
        structure_type := "static", from_node_id := none, to_node_id := none }
    offer :=
      { departure_time_utc := now, arrival_time_utc := now + durationMin * 60000,
        price_total := some price, currency := "USD", source_type := "manual_static",
        is_static := 1, retrieval_time_utc := now,
        validity_window_hrs := some 24, ttl_hrs := none } }

/-! ## graph.js: transfer-edge injection -/

/-- The approximate planar distance used by the gate in addTransferEdges
(graph.js lines 110-112): sqrt(dx*dx + dy*dy) * 111. -/
def distApprox (a b : Node) : ℝ :=
  let dx := a.lat - b.lat
  let dy := a.lon - b.lon
  Real.sqrt (dx * dx + dy * dy) * 111

/-- One inner-loop iteration of addTransferEdges for the ordered pair
(a, b): skip when the ids coincide or the approximate distance exceeds
the radius, otherwise push walk, rideshare and shuttle arcs onto the
adjacency entry of a (graph.js lines 105-127). -/
def pushTransferArcs (now radiusKm : ℝ) (a : Node) (acc2 : ℤ → List Arc)
    (b : Node) : ℤ → List Arc :=
  if a.id = b.id then acc2
  else if distApprox a b > radiusKm then acc2
  else
    let acc3 := fun j => if j = a.id then acc2 j ++ [generateWalkTransfer a b now] else acc2 j
    let acc4 := fun j =>
      if j = a.id then acc3 j ++ [generateRideshareTransfer a b defaultRideshareModel now]
      else acc3 j
    fun j => if j = a.id then acc4 j ++ [generateShuttleTransfer a b shuttleDefaults now]
      else acc4 j

/-- addTransferEdges (graph.js): the double loop over ordered node pairs;
the source mutates the adjacency object, modelled here functionally.  The
source default radius is 3.0. -/
def addTransferEdges (now : ℝ) (nodes : List Node) (adj : ℤ → List Arc)
    (radiusKm : ℝ) : ℤ → List Arc :=
  nodes.foldl (fun acc a => nodes.foldl (pushTransferArcs now radiusKm a) acc) adj

/-- The transfer arcs addTransferEdges contributes for one ordered pair:
three synthesized arcs when the ids differ and the approximate distance
is within the radius, none otherwise.  Characterization device for the
theorems below. -/
def pairTransferArcs (now radiusKm : ℝ) (a b : Node) : List Arc :=
  if a.id = b.id then []
  else if distApprox a b > radiusKm then []
  else
    [generateWalkTransfer a b now,
     generateRideshareTransfer a b defaultRideshareModel now,
     generateShuttleTransfer a b shuttleDefaults now]

/-! ## generalizedCost.js -/

/-- minutesBetween (generalizedCost.js): timestamps are epoch ms. -/
def minutesBetween (startUtc endUtc : ℝ) : ℝ := (endUtc - startUtc) / 60000

/-- The object computeLegGeneralizedCost destructures: fields
genCostSoFar / transfersSoFar / arrivalTimeUtc.  When the caller passes an
object without these properties (the search passes its raw state, whose
fields are named genCost / transfers), the destructured values are
`undefined`, i.e. `none`. -/
structure CostInput where
  genCostSoFar : JsNum
  transfersSoFar : JsNum
  arrivalTimeUtc : JsNum

/-- The record returned by computeLegGeneralizedCost. -/
structure CostResult where
  newGenCost : JsNum
  newTransfers : JsNum
  legDurationMin : ℝ

/-- computeLegGeneralizedCost (generalizedCost.js lines 24-61), with the
same left-associated sum `genCostSoFar + cash + tv*durationHours +
transferPenaltyCost + riskCost`.  `offer.price_total || 0` maps null to 0
(and 0 to 0), modelled by `Option.getD`. -/
def computeLegGeneralizedCost (pin : CostInput) (leg : Arc) (params : Params) :
    CostResult :=
  let durationMin := minutesBetween leg.offer.departure_time_utc leg.offer.arrival_time_utc
  let durationHours := durationMin / 60
  let cash := leg.offer.price_total.getD 0
  let transferPenaltyCost : ℝ :=
    if leg.edge_leg.is_transfer = 1 then params.transferPenalty else 0
  let riskCost := params.riskPenalty
  let newGenCost :=
    jsAdd (jsAdd (jsAdd (jsAdd pin.genCostSoFar (some cash))
      (some (params.timeValuePerHour * durationHours))) (some transferPenaltyCost))
      (some riskCost)
  let newTransfers :=
    jsAdd pin.transfersSoFar (some (if leg.edge_leg.is_transfer = 1 then 1 else 0))
  { newGenCost := newGenCost, newTransfers := newTransfers, legDurationMin := durationMin }

/-- An object as read by estimateLowerBound: it accesses `.lat`/`.lon`.
Node records provide real values; edge records provide `undefined`. -/
structure GeoObj where
  lat : JsNum
  lon : JsNum

/-- View of a node as the object estimateLowerBound reads. -/
def Node.toGeoObj (n : Node) : GeoObj := { lat := some n.lat, lon := some n.lon }

/-- View of an edge record as the object estimateLowerBound reads: edge
records carry no lat/lon properties, so both reads yield `undefined`. -/
def Edge.toGeoObj (_ : Edge) : GeoObj := { lat := none, lon := none }

/-- estimateLowerBound (generalizedCost.js lines 72-88):
timeValuePerHour * (sqrt(dx*dx + dy*dy) * 111 / 700), NaN-propagating. -/
def estimateLowerBound (originNode destNode : GeoObj) (params : Params) : JsNum :=
  let dx := jsSub originNode.lat destNode.lat
  let dy := jsSub originNode.lon destNode.lon
  let distKm := jsMul (jsSqrt (jsAdd (jsMul dx dx) (jsMul dy dy))) (some 111)
  let fastModeHours := jsDiv distKm (some 700)
  jsMul (some params.timeValuePerHour) fastModeHours

/-- The object shouldPrune receives as its first argument.  It forwards it
to computeLegGeneralizedCost (destructured fields) and additionally reads
`.origin.lat`/`.origin.lon` in the detour block; `origin` is `none` when
the property is absent, in which case the read throws. -/
structure PruneInput where
  genCostSoFar : JsNum
  transfersSoFar : JsNum
  arrivalTimeUtc : JsNum
  origin : Option Node

/-- Projection of a PruneInput to the fields computeLegGeneralizedCost reads. -/
def PruneInput.toCostInput (p : PruneInput) : CostInput :=
  { genCostSoFar := p.genCostSoFar, transfersSoFar := p.transfersSoFar,
    arrivalTimeUtc := p.arrivalTimeUtc }

/-- shouldPrune (generalizedCost.js lines 96-138).

* Check 1: `bestCost !== null && newGenCost >= bestCost` — prune.
* Lower-bound check: `estimateLowerBound(nextLeg.edge_leg, destNode,
  params)` reads `destNode.lat`, throwing when `destNode` is `undefined`;
  the originNode argument is an edge record without lat/lon, so the bound
  itself is NaN and the comparison of check 2 can never be true.
* Detour check: reads `partial.origin.lat`, throwing when the input has no
  `origin` property; `nextLeg.edge_leg.destination_lat`/`_lon` are absent
  on every edge record, so `distSoFar` is NaN and the comparison is false.
-/
def shouldPrune (pin : PruneInput) (nextLeg : Arc) (bestCost : Option JsNum)
    (destNode : Option Node) (params : Params) : Except JsError Bool :=
  let r := computeLegGeneralizedCost pin.toCostInput nextLeg params
  if jsGeOpt r.newGenCost bestCost then .ok true
  else
    match destNode with
    | none => .error .typeError
    | some d =>
      let lb := estimateLowerBound nextLeg.edge_leg.toGeoObj d.toGeoObj params
      if jsGeOpt (jsAdd r.newGenCost lb) bestCost then .ok true
      else
        match pin.origin with
        | none => .error .typeError
        | some o =>
          let dxJ := jsSub (some o.lat) nextLeg.edge_leg.destinationLatRead
          let dyJ := jsSub (some o.lon) nextLeg.edge_leg.destinationLonRead
          let distSoFar := jsMul (jsSqrt (jsAdd (jsMul dxJ dxJ) (jsMul dyJ dyJ))) (some 111)
          let dx2 := o.lat - d.lat
          let dy2 := o.lon - d.lon
          let directDist := Real.sqrt (dx2 * dx2 + dy2 * dy2) * 111
          if jsGtB distSoFar (some (params.maxDetourFactor * directDist)) then .ok true
          else .ok false

/-! ## search.js -/

/-- A search state (createState, search.js lines 155-163).  genCost and
transfers are JsNum because the successor construction feeds them from
computeLegGeneralizedCost applied to the raw state (whose genCostSoFar
read is `undefined`), which yields NaN. -/
structure SearchState where
  nodeId : JsId
  arrivalTimeUtc : ℝ
  genCost : JsNum
  transfers : JsNum
  path : List Arc

/-- createState (search.js). -/
def createState (nodeId : JsId) (arrivalTimeUtc : ℝ) (genCost : JsNum)
    (transfers : JsNum) (path : List Arc) : SearchState :=
  { nodeId := nodeId, arrivalTimeUtc := arrivalTimeUtc, genCost := genCost,
    transfers := transfers, path := path }

/-- The search calls computeLegGeneralizedCost(state, leg, params) with the
raw state object: its cost field is named `genCost` and its transfer count
`transfers`, so the destructured `genCostSoFar`/`transfersSoFar` reads are
`undefined`; only `arrivalTimeUtc` is present. -/
def SearchState.asCostInput (s : SearchState) : CostInput :=
  { genCostSoFar := none, transfersSoFar := none, arrivalTimeUtc := some s.arrivalTimeUtc }

/-- The search calls shouldPrune(state, ...) with the raw state object: in
addition to the absent genCostSoFar/transfersSoFar fields, the state has
no `origin` property, so the read in the detour block throws. -/
def SearchState.asPruneInput (s : SearchState) : PruneInput :=
  { genCostSoFar := none, transfersSoFar := none,
    arrivalTimeUtc := some s.arrivalTimeUtc, origin := none }

/-- Dominance key: node id plus 5-minute arrival bucket
(makeDominanceKey, search.js lines 171-175). -/
def makeDominanceKey (nodeId : JsId) (arrivalTimeUtc : ℝ) : JsId × ℤ :=
  (nodeId, ⌊arrivalTimeUtc / (5 * 60 * 1000)⌋)

/-- The dominance table: best generalized cost per key (`Map` in the
source, keyed by the string "nodeId:bucket", which is injective in the
pair). -/
abbrev DomMap := JsId × ℤ → Option JsNum

/-- isDominated (search.js lines 181-193): drop the state when a previous
state reached the same key with cost `<=`; otherwise record its cost.
Returns the updated table alongside the verdict. -/
def isDominated (state : SearchState) (dominanceMap : DomMap) : Bool × DomMap :=
  let key := makeDominanceKey state.nodeId state.arrivalTimeUtc
  match dominanceMap key with
  | some prevBest =>
    if jsLeB prevBest state.genCost then (true, dominanceMap)
    else (false, fun k => if k = key then some state.genCost else dominanceMap k)
  | none => (false, fun k => if k = key then some state.genCost else dominanceMap k)

/-- isDestination (search.js lines 200-211).  For an address spec the
source reads `destSpec.nodes[0].id`, which throws when the node list is
empty; area and hotel specs build a Set of ids and test membership. -/
def isDestination (state : SearchState) (destSpec : PlaceSpec) : Except JsError Bool :=
  if destSpec.isAddress then
    match destSpec.nodes.head? with
    | none => .error .typeError
    | some n => .ok (jsIdEq state.nodeId n.id)
  else if destSpec.isArea || destSpec.isHotelQuery then
    .ok (destSpec.nodes.any (fun n => jsIdEq n.id state.nodeId))
  else .ok false

/-- extractDestinationNodes (search.js line 216-218). -/
def extractDestinationNodes (destSpec : PlaceSpec) : List SpecNode := destSpec.nodes

/-- The node lookup map `new Map(nodes.map(n => [n.id, n]))`: on duplicate
ids the later entry overwrites, hence the reverse-first lookup.  Keys are
the integer node ids, so `null`/`undefined` lookups miss. -/
def nodeByIdGet (nodes : List Node) : JsId → Option Node
  | .num i => nodes.reverse.find? (fun n => n.id == i)
  | .null => none
  | .undef => none

/-- Adjacency lookup `adj[state.nodeId] || []` (search.js line 358): a
non-numeric id or an id without an entry yields the empty list. -/
def adjLookup (adj : ℤ → List Arc) : JsId → List Arc
  | .num i => adj i
  | .null => []
  | .undef => []

/-- Insertion step of the frontier sort, ascending by genCost; equal keys
keep the earlier element first (JavaScript Array.prototype.sort is
stable). -/
def insertByCost (s : SearchState) : List SearchState → List SearchState
  | [] => [s]
  | t :: ts => if jsLeB s.genCost t.genCost then s :: t :: ts else t :: insertByCost s ts

/-- The frontier sort `frontier.sort((a, b) => a.genCost - b.genCost)`,
modelled as a stable insertion sort by genCost. -/
def sortByGenCost : List SearchState → List SearchState
  | [] => []
  | s :: ss => insertByCost s (sortByGenCost ss)

/-- The search result object: search_status, best_itinerary, expansions. -/
inductive SearchStatus where
  | OK : SearchStatus
  | TIME_BUDGET_EXHAUSTED : SearchStatus
  | NO_FEASIBLE_ROUTE : SearchStatus
deriving DecidableEq

/-- The record searchItinerariesDoorToDoor returns. -/
structure SearchResult where
  search_status : SearchStatus
  best_itinerary : Option SearchState
  expansions : ℕ

/-- The environment fixed for the duration of one search: the assembled
graph, the destination spec, the parameters, and the elapsed-clock
observations (`Date.now() - startTime` at the k-th loop check). -/
structure SearchEnv where
  nodes : List Node
  adj : ℤ → List Arc
  destSpec : PlaceSpec
  params : Params
  elapsedMs : ℕ → ℝ

/-- The successor construction of the expansion loop (search.js lines
369-382): compute the leg cost from the raw state, then createState with
the (absent, hence `undefined`) destination_node_id, the arrival time of the offer, the new cost and transfer count, and the extended path. -/
def makeSuccessor (state : SearchState) (leg : Arc) (params : Params) : SearchState :=
  let r := computeLegGeneralizedCost state.asCostInput leg params
  createState leg.edge_leg.destinationNodeIdRead leg.offer.arrival_time_utc
    r.newGenCost r.newTransfers (state.path ++ [leg])

/-- The per-expansion loop over outgoing legs (search.js lines 362-388):
for each leg, shouldPrune (which evaluates `destNodes[0].id`, throwing on
an empty destination list, and can itself throw), then the successor
construction, then dominance; surviving successors are pushed in order.
Returns the pushed states and the updated dominance table. -/
def processLegs (env : SearchEnv) (state : SearchState) (bestCost : Option JsNum) :
    List Arc → DomMap → Except JsError (List SearchState × DomMap)
  | [], dom => .ok ([], dom)
  | leg :: rest, dom =>
    match extractDestinationNodes env.destSpec with
    | [] => .error .typeError
    | dn :: _ =>
      match shouldPrune state.asPruneInput leg bestCost (nodeByIdGet env.nodes dn.id)
          env.params with
      | .error e => .error e
      | .ok true => processLegs env state bestCost rest dom
      | .ok false =>
        let newState := makeSuccessor state leg env.params
        match isDominated newState dom with
        | (true, dom2) => processLegs env state bestCost rest dom2
        | (false, dom2) =>
          match processLegs env state bestCost rest dom2 with
          | .error e => .error e
          | .ok (adds, dom3) => .ok (newState :: adds, dom3)

/-- The main loop of searchItinerariesDoorToDoor (search.js lines 288-397).

Each iteration: return NO_FEASIBLE_ROUTE with a null best itinerary when
the frontier is empty (the literal `best_itinerary: null` of lines
391-397); TIME_BUDGET_EXHAUSTED when the elapsed clock strictly exceeds
timeoutMs or the expansion count strictly exceeds maxExpansions; otherwise
sort the frontier, shift the minimum, count the expansion, and either
process a destination hit (best update plus the early-optimality check,
lines 320-355, where the lower bound reads `destNodes[0].id` and the two
node-map lookups, each read throwing on `undefined`) or expand the
outgoing legs.  Termination: every non-returning iteration increments
`expansions`, and the budget check fires once it exceeds maxExpansions. -/
def searchLoop (env : SearchEnv) (frontier : List SearchState) (dom : DomMap)
    (bestCost : Option JsNum) (bestState : Option SearchState) (expansions : ℕ) :
    Except JsError SearchResult :=
  match frontier with
  | [] => .ok { search_status := .NO_FEASIBLE_ROUTE
                best_itinerary := none
                expansions := expansions }
  | f :: fs =>
    if env.elapsedMs expansions > env.params.timeoutMs then
      .ok { search_status := .TIME_BUDGET_EXHAUSTED
            best_itinerary := bestState
            expansions := expansions }
    else if _hexp : env.params.maxExpansions < expansions then
      .ok { search_status := .TIME_BUDGET_EXHAUSTED
            best_itinerary := bestState
            expansions := expansions }
    else
      match sortByGenCost (f :: fs) with
      | [] => .ok { search_status := .NO_FEASIBLE_ROUTE
                    best_itinerary := none
                    expansions := expansions }
      | state :: rest =>
        match isDestination state env.destSpec with
        | .error e => .error e
        | .ok true =>
          let upd : JsNum × Option SearchState :=
            match bestCost with
            | none => (state.genCost, some state)
            | some b => if jsLtB state.genCost b then (state.genCost, some state)
                else (b, bestState)
          match rest with
          | [] => searchLoop env rest dom (some upd.1) upd.2 (expansions + 1)
          | f0 :: _ =>
            match extractDestinationNodes env.destSpec with
            | [] => .error .typeError
            | dn :: _ =>
              match nodeByIdGet env.nodes f0.nodeId with
              | none => .error .typeError
              | some fNode =>
                match nodeByIdGet env.nodes dn.id with
                | none => .error .typeError
                | some dNode =>
                  let lbFrontier := jsAdd f0.genCost
                    (estimateLowerBound fNode.toGeoObj dNode.toGeoObj env.params)
                  if jsGeB lbFrontier upd.1 then
                    .ok { search_status := .OK
                          best_itinerary := upd.2
                          expansions := expansions + 1 }
                  else searchLoop env rest dom (some upd.1) upd.2 (expansions + 1)
        | .ok false =>
          match adjLookup env.adj state.nodeId with
          | [] => searchLoop env rest dom bestCost bestState (expansions + 1)
          | leg :: more =>
            match processLegs env state bestCost (leg :: more) dom with
            | .error e => .error e
            | .ok (adds, dom2) =>
              searchLoop env (rest ++ adds) dom2 bestCost bestState (expansions + 1)
termination_by (env.params.maxExpansions + 1) - expansions
decreasing_by all_goals omega

/-- The frontier seeding (search.js lines 266-283): one initial state per
origin node, genCost 0, transfers 0, arrival time the search wall clock.
A node whose id `== null` is assigned a random negative id
`-Math.floor(Math.random()*1000000)`, modelled by the id supply
`randIds` indexed by position. -/
def seedStates (now : ℝ) (randIds : ℕ → ℤ) : List SpecNode → ℕ → List SearchState
  | [], _ => []
  | orig :: rest, k =>
    createState (if isLooseNull orig.id then JsId.num (randIds k) else orig.id)
      now (some 0) (some 0) [] :: seedStates now randIds rest (k + 1)

/-- searchItinerariesDoorToDoor (search.js lines 223-397), parameterized by
the assembled graph (`buildGraph()` output: nodes and timed adjacency), the
origin/destination specs, the parameters, the start clock, the elapsed
clock observations and the random-id supply. -/
def searchItinerariesDoorToDoor (nodes : List Node) (adj : ℤ → List Arc)
    (originSpec destSpec : PlaceSpec) (params : Params) (now : ℝ)
    (elapsedMs : ℕ → ℝ) (randIds : ℕ → ℤ) : Except JsError SearchResult :=
  searchLoop { nodes := nodes
               adj := adj
               destSpec := destSpec
               params := params
               elapsedMs := elapsedMs }
    (seedStates now randIds originSpec.nodes 0) (fun _ => none) none none 0

/-! ## Path cost and lower-bound helpers (for the admissibility claim) -/

/-- The generalized cost a single leg adds, as a real number: cash plus
time value plus transfer penalty plus risk (the summand structure of
computeLegGeneralizedCost). -/
def legCostR (params : Params) (l : Arc) : ℝ :=
  l.offer.price_total.getD 0
    + params.timeValuePerHour *
        (minutesBetween l.offer.departure_time_utc l.offer.arrival_time_utc / 60)
    + (if l.edge_leg.is_transfer = 1 then params.transferPenalty else 0)
    + params.riskPenalty

/-- The generalized cost of a whole path, as a real number. -/
def pathCostR (params : Params) (legs : List Arc) : ℝ :=
  (legs.map (legCostR params)).sum

/-- The generalized cost of a path computed by folding
computeLegGeneralizedCost from cost 0 and 0 transfers, exactly as the
search accumulates it along an itinerary (the arrivalTimeUtc field is
never read by the cost computation and is passed as `none`). -/
def pathGenCost (params : Params) (legs : List Arc) : JsNum :=
  (legs.foldl
    (fun acc leg =>
      let r := computeLegGeneralizedCost
        { genCostSoFar := acc.1, transfersSoFar := acc.2, arrivalTimeUtc := none }
        leg params
      (r.newGenCost, r.newTransfers))
    ((some 0 : JsNum), (some 0 : JsNum))).1

/-- A chained path in the assembled adjacency: every leg hangs off the
adjacency entry of the current node and its edge links the current node to
the next.  Synthesized transfer edges carry no endpoint ids, so chained
paths consist of persisted structural arcs. -/
def IsPath (adj : ℤ → List Arc) : ℤ → List Arc → ℤ → Prop
  | u, [], v => u = v
  | u, l :: ls, v =>
    l ∈ adj u ∧ l.edge_leg.from_node_id = some u ∧
      (match l.edge_leg.to_node_id with
       | some w => IsPath adj w ls v
       | none => False)

/-- The planar approximate distance between two coordinate pairs, the
metric underlying both estimateLowerBound and the transfer gate. -/
def approxDistKm (p q : ℝ × ℝ) : ℝ :=
  Real.sqrt ((p.1 - q.1) * (p.1 - q.1) + (p.2 - q.2) * (p.2 - q.2)) * 111

/-! ## apiCache.js -/

/-- JSON values (numbers restricted to integers, which covers the
parameter payloads at issue). -/
inductive Json where
  | null : Json
  | bool : Bool → Json
  | num : ℤ → Json
  | str : String → Json
  | arr : List Json → Json
  | obj : List (String × Json) → Json

/-- First binding of a key in a JSON object (JavaScript object keys are
unique, so first = only). -/
def lookupField (fs : List (String × Json)) (k : String) : Option Json :=
  match fs with
  | [] => none
  | (k2, v) :: rest => if k2 = k then some v else lookupField rest k

/-- Quote a JSON string (the keys and strings in scope are ASCII without
escape-worthy characters). -/
def jsonQuote (s : String) : String := "\"" ++ s ++ "\""

/-- Insertion step of the lexicographic key sort (Array.prototype.sort
with the default comparator on ASCII keys). -/
def insertKeyStr (s : String) : List String → List String
  | [] => [s]
  | t :: ts => if s ≤ t then s :: t :: ts else t :: insertKeyStr s ts

/-- Lexicographic sort of the key list. -/
def sortStrings : List String → List String
  | [] => []
  | s :: ss => insertKeyStr s (sortStrings ss)

/-- JSON.stringify(value, replacer-array) per ECMA-262: every object, at
every depth, is serialized by walking the replacer PropertyList in order
and emitting only the keys the object actually has; arrays are serialized
in full.  The fuel argument bounds the nesting depth (any value of fuel at
least the sizeOf of the value is enough). -/
def stringifyVal : ℕ → List String → Json → String
  | 0, _, _ => ""
  | fuel + 1, plist, j =>
    match j with
    | .null => "null"
    | .bool true => "true"
    | .bool false => "false"
    | .num n => toString n
    | .str s => jsonQuote s
    | .arr xs =>
      "[" ++ String.intercalate "," (xs.map (fun v => stringifyVal fuel plist v)) ++ "]"
    | .obj fs =>
      "\x7b" ++ String.intercalate ","
        (plist.filterMap (fun k =>
          (lookupField fs k).map (fun v => jsonQuote k ++ ":" ++ stringifyVal fuel plist v)))
        ++ "\x7d"

/-- The PropertyList `Object.keys(obj).sort()`: the keys of the object in
insertion order, sorted lexicographically; the PropertyList construction
of JSON.stringify removes duplicates. -/
def sortedTopKeys : Json → List String
  | .obj fs => (sortStrings (fs.map Prod.fst)).dedup
  | _ => []

/-- The string canonicalHash digests:
`JSON.stringify(obj, Object.keys(obj).sort())` (apiCache.js line 10). -/
def canonicalParamsJson (obj : Json) : String :=
  stringifyVal (sizeOf obj) (sortedTopKeys obj) obj

/-- canonicalHash (apiCache.js lines 9-12): the sha256 hex digest of the
canonical serialization.  The digest function is a primitive outside the
model, taken as a parameter; equal inputs yield equal digests. -/
def canonicalHash (sha256hex : String → String) (obj : Json) : String :=
  sha256hex (canonicalParamsJson obj)

/-- Errors of the underlying sqlite store. -/
inductive DbError where
  | unavailable : DbError
  | corrupted : DbError
deriving DecidableEq

/-- An api_cache row as read back by apiCacheGet: the expiry timestamp in
epoch ms and the stored response body (already parsed). -/
structure CacheRow where
  id : ℤ
  expires_at_utc : ℝ
  response_body_json : Json

/-- apiCacheGet (apiCache.js lines 17-51), as a function of the underlying
db.get outcome: `if (err) return reject(err)` propagates the store error
as a rejection; on a hit the stored body is resolved only while
`now < expires_at_utc`, otherwise null; a miss resolves null.  (The
fire-and-forget hit-count update only touches the store.) -/
def apiCacheGet (dbGetOutcome : Except DbError (Option CacheRow)) (nowMs : ℝ) :
    Except DbError (Option Json) :=
  match dbGetOutcome with
  | .error e => .error e
  | .ok none => .ok none
  | .ok (some row) =>
    if nowMs < row.expires_at_utc then .ok (some row.response_body_json)
    else .ok none

/-- apiCachePut (apiCache.js lines 56-106), as a function of the
underlying db.run outcome: a store error is propagated as a rejection
(`if (err) ... return reject(err)`), success resolves the inserted row
id. -/
def apiCachePut (dbRunOutcome : Except DbError ℤ) : Except DbError ℤ :=
  match dbRunOutcome with
  | .error e => .error e
  | .ok lastId => .ok lastId

/-! ## Concrete inputs used by the claim theorems -/

/-- Node A of the two-node example graph: id 1 at (0, 0). -/
def exA : Node := { id := 1, lat := 0, lon := 0 }

/-- Node B of the two-node example graph: id 2 at (0.027, 0).  The planar
approximate distance to A is 0.027 * 111 = 2.997 km (within the 3 km
radius) while the haversine distance is 6371 * 0.027 * pi / 180 km,
which exceeds 3 km. -/
def exB : Node := { id := 2, lat := 0.027, lon := 0 }

/-- The nodes of the example graph. -/
def exNodes : List Node := [exA, exB]

/-- The adjacency assembled from the example nodes: no structural edges,
transfers injected by addTransferEdges at the default 3 km radius, with
generation clock 0. -/
def exAdj : ℤ → List Arc := addTransferEdges 0 exNodes (fun _ => []) 3

/-- Area origin spec resolving to node 1. -/
def exOriginSpec : PlaceSpec :=
  { isAddress := false, isArea := true, isHotelQuery := false
    nodes := [{ id := JsId.num 1, lat := 0, lon := 0 }] }

/-- Area destination spec resolving to node 2. -/
def exDestSpec : PlaceSpec :=
  { isAddress := false, isArea := true, isHotelQuery := false
    nodes := [{ id := JsId.num 2, lat := 0.027, lon := 0 }] }

/-- Area spec with the single node 7, used both as origin and destination
of the solo search. -/
def exSoloSpec : PlaceSpec :=
  { isAddress := false, isArea := true, isHotelQuery := false
    nodes := [{ id := JsId.num 7, lat := 0, lon := 0 }] }

/-- The empty adjacency. -/
def emptyAdj : ℤ → List Arc := fun _ => []

/-- Default parameters with the expansion budget set to zero. -/
def zeroExpParams : Params := { defaultParams with maxExpansions := 0 }

/-- Origin spec with two nodes (ids 1 and 2), both without outgoing arcs. -/
def exTwoOriginSpec : PlaceSpec :=
  { isAddress := false, isArea := true, isHotelQuery := false
    nodes := [{ id := JsId.num 1, lat := 0, lon := 0 },
              { id := JsId.num 2, lat := 0, lon := 0 }] }

/-- Address destination spec with node id 9 (matched by no origin). -/
def exAddrDest : PlaceSpec :=
  { isAddress := true, isArea := false, isHotelQuery := false
    nodes := [{ id := JsId.num 9, lat := 0, lon := 0 }] }

/-- Destination node of the lower-bound examples: id 2 at (1, 0), one
degree of latitude (approximately 111 km) from node 1. -/
def exLbD : Node := { id := 2, lat := 1, lon := 0 }

/-- A structural flight edge from node 1 to node 2. -/
def exFlightEdge : Edge :=
  { mode := "flight", is_transfer := 0, distance_km := none, duration_min := 1,
    co_located := 0, structure_type := "static", from_node_id := some 1,
    to_node_id := some 2 }

/-- A one-minute, zero-price offer on the flight edge: it covers the
roughly 111 km at an effective speed far above 700 km/h. -/
def exFastOffer : Offer :=
  { departure_time_utc := 0, arrival_time_utc := 60000, price_total := some 0,
    currency := "USD", source_type := "manual_static", is_static := 1,
    retrieval_time_utc := 0, validity_window_hrs := none, ttl_hrs := none }

/-- The fast arc. -/
def exFastArc : Arc := { edge_leg := exFlightEdge, offer := exFastOffer }

/-- Adjacency containing only the fast arc at node 1. -/
def exFastAdj : ℤ → List Arc := fun i => if i = 1 then [exFastArc] else []

/-- A one-hour, zero-price offer on the flight edge: 111 km in an hour
respects the 700 km/h cap. -/
def exSlowOffer : Offer :=
  { departure_time_utc := 0, arrival_time_utc := 3600000, price_total := some 0,
    currency := "USD", source_type := "manual_static", is_static := 1,
    retrieval_time_utc := 0, validity_window_hrs := none, ttl_hrs := none }

/-- The slow arc. -/
def exSlowArc : Arc := { edge_leg := exFlightEdge, offer := exSlowOffer }

/-- Adjacency containing only the slow arc at node 1. -/
def exSlowAdj : ℤ → List Arc := fun i => if i = 1 then [exSlowArc] else []

/-- Coordinates by node id for the lower-bound examples: node 2 at (1, 0),
every other node at (0, 0). -/
def exCoords : ℤ → ℝ × ℝ := fun i => if i = 2 then ((1 : ℝ), (0 : ℝ)) else (0, 0)

/-- A state at node 3 with generalized cost 5, arrival epoch 0. -/
def exDomState1 : SearchState :=
  { nodeId := JsId.num 3, arrivalTimeUtc := 0, genCost := some 5,
    transfers := some 0, path := [] }

/-- A second state at node 3 with the same generalized cost 5, arriving
60 s later — the same 5-minute dominance bucket. -/
def exDomState2 : SearchState :=
  { nodeId := JsId.num 3, arrivalTimeUtc := 60000, genCost := some 5,
    transfers := some 1, path := [] }

/-- A boarding state at node 5 whose frontier arrival time is 200 ms. -/
def exGenState : SearchState :=
  { nodeId := JsId.num 5, arrivalTimeUtc := 200, genCost := some 0,
    transfers := some 0, path := [] }

/-- An outgoing arc whose offer departs at epoch 100 — before the boarding
arrival time 200 of the state. -/
def exGenLeg : Arc :=
  { edge_leg :=
      { mode := "bus", is_transfer := 0, distance_km := none, duration_min := 30,
        co_located := 0, structure_type := "static", from_node_id := some 5,
        to_node_id := some 6 }
    offer :=
      { departure_time_utc := 100, arrival_time_utc := 300, price_total := some 10,
        currency := "USD", source_type := "manual_static", is_static := 1,
        retrieval_time_utc := 0, validity_window_hrs := none, ttl_hrs := none } }

/-- Parameter object with one nested object: canonical-hash failing input,
variant 1. -/
def exParams1 : Json := .obj [("a", .obj [("b", .num 1)])]

/-- The same shape with a different nested value: variant 2. -/
def exParams2 : Json := .obj [("a", .obj [("b", .num 2)])]

/-! ## Helper lemmas -/

@[simp]
theorem jsAdd_some_some (x y : ℝ) : jsAdd (some x) (some y) = some (x + y) := rfl

@[simp]
theorem jsAdd_none_left (y : JsNum) : jsAdd none y = none := by cases y <;> rfl

@[simp]
theorem jsAdd_none_right (x : JsNum) : jsAdd x none = none := by cases x <;> rfl

@[simp]
theorem jsGeOpt_none (a : JsNum) : jsGeOpt a none = false := rfl

@[simp]
theorem jsLeB_some_some (x y : ℝ) : jsLeB (some x) (some y) = if x ≤ y then true else false := rfl

@[simp]
theorem jsLtB_some_some (x y : ℝ) : jsLtB (some x) (some y) = if x < y then true else false := rfl

@[simp]
theorem jsGtB_none_left (y : JsNum) : jsGtB none y = false := by cases y <;> rfl

/-! ## Claim theorems -/

/-- C7: for every partial state with numeric genCostSoFar, transfersSoFar
and arrivalTimeUtc and every candidate leg, computeLegGeneralizedCost
returns newGenCost = genCostSoFar + cash + timeValuePerHour *
(durationMin / 60) + transferCost + riskCost, where durationMin is the
arrival minus the departure of the offer, in minutes, cash is the offer price (0 if
null), transferCost is transferPenalty exactly when edge.is_transfer = 1
and 0 otherwise, and newTransfers = transfersSoFar + 1 exactly when
edge.is_transfer = 1. -/
theorem computeLegGeneralizedCost_formula (g n t : ℝ) (leg : Arc) (params : Params) :
    computeLegGeneralizedCost
        { genCostSoFar := some g, transfersSoFar := some n, arrivalTimeUtc := some t }
        leg params
      = { newGenCost := some (g + leg.offer.price_total.getD 0
              + params.timeValuePerHour *
                  (minutesBetween leg.offer.departure_time_utc leg.offer.arrival_time_utc / 60)
              + (if leg.edge_leg.is_transfer = 1 then params.transferPenalty else 0)
              + params.riskPenalty)
          newTransfers := some (n + (if leg.edge_leg.is_transfer = 1 then 1 else 0))
          legDurationMin :=
            minutesBetween leg.offer.departure_time_utc leg.offer.arrival_time_utc } := by
  rfl

/-- C8: successor generation applies no temporal feasibility constraint —
even when the offer of the arc departs before the boarding arrival
time, the successor constructed by the expansion loop (and pushed by
processLegs whenever shouldPrune returns false and dominance does not
drop it) carries the arrival time of the offer unconditionally, and is wholly
independent of the arrivalTimeUtc of the boarding state (in particular
the added cost of the leg is). -/
theorem makeSuccessor_no_temporal_check (s : SearchState) (leg : Arc) (params : Params)
    (_hdep : leg.offer.departure_time_utc < s.arrivalTimeUtc) :
    (makeSuccessor s leg params).arrivalTimeUtc = leg.offer.arrival_time_utc ∧
      ∀ t : ℝ, makeSuccessor { s with arrivalTimeUtc := t } leg params
        = makeSuccessor s leg params :=
  ⟨rfl, fun _ => rfl⟩

/-- Witness for the successor-generation theorem at a concrete
time-infeasible boarding: the offer departs at 100 while the state
arrived at 200. -/
theorem makeSuccessor_no_temporal_check_witness :
    (makeSuccessor exGenState exGenLeg defaultParams).arrivalTimeUtc
        = exGenLeg.offer.arrival_time_utc ∧
      makeSuccessor { exGenState with arrivalTimeUtc := 999 } exGenLeg defaultParams
        = makeSuccessor exGenState exGenLeg defaultParams := by
  have h := makeSuccessor_no_temporal_check exGenState exGenLeg defaultParams
    (by norm_num [exGenState, exGenLeg])
  exact ⟨h.1, h.2 999⟩

/-- C4 amended: the dominance rule of isDominated is non-strict — a newly
generated state is dropped precisely when a prior state reached its
(nodeId, 5-minute bucket) key with less-or-EQUAL genCost (so an
equal-cost newcomer IS dropped and the survivor is merely no worse, not
strictly better); otherwise the cost of the newcomer is recorded. -/
theorem isDominated_dominance_rule (s : SearchState) (m : DomMap) (g : ℝ)
    (hg : s.genCost = some g) :
    (m (makeDominanceKey s.nodeId s.arrivalTimeUtc) = none →
        isDominated s m =
          (false, fun k => if k = makeDominanceKey s.nodeId s.arrivalTimeUtc
              then some s.genCost else m k)) ∧
    (∀ p : ℝ, m (makeDominanceKey s.nodeId s.arrivalTimeUtc) = some (some p) →
        ((p ≤ g → isDominated s m = (true, m)) ∧
         (g < p → isDominated s m =
            (false, fun k => if k = makeDominanceKey s.nodeId s.arrivalTimeUtc
                then some s.genCost else m k)))) := by
  refine ⟨fun hnone => ?_, fun p hp => ⟨fun hle => ?_, fun hlt => ?_⟩⟩
  · simp [isDominated, hnone]
  · simp [isDominated, hp, hg, jsLeB, hle]
  · simp [isDominated, hp, hg, jsLeB, not_le.mpr hlt]

/-- Witness for the dominance rule: inserting a fresh state into the empty
table records its cost. -/
theorem isDominated_dominance_rule_witness :
    isDominated exDomState1 (fun _ => none) =
      (false, fun k =>
        if k = makeDominanceKey exDomState1.nodeId exDomState1.arrivalTimeUtc
        then some exDomState1.genCost else none) :=
  (isDominated_dominance_rule exDomState1 (fun _ => none) 5 rfl).1 rfl

/-- C4 counterexample: two states generated at node 3 in the same 5-minute
arrival bucket with the same genCost 5 — the first survives, and the
second, whose genCost EQUALS the recorded best, is dropped, contradicting
the claim that an equal-cost state is not dropped (equivalently, the
survivor is not strictly cheaper than this dropped peer). -/
theorem isDominated_drops_equal_cost :
    (isDominated exDomState1 (fun _ => none)).1 = false ∧
    (isDominated exDomState2 ((isDominated exDomState1 (fun _ => none)).2)).1 = true ∧
    exDomState1.genCost = exDomState2.genCost := by
  have hb1 : (⌊(0 : ℝ) / (5 * 60 * 1000)⌋ : ℤ) = 0 := by norm_num
  have hb2 : (⌊(60000 : ℝ) / (5 * 60 * 1000)⌋ : ℤ) = 0 := by
    rw [Int.floor_eq_zero_iff]
    constructor <;> norm_num
  refine ⟨?_, ?_, rfl⟩
  · simp [isDominated, exDomState1]
  · simp [isDominated, exDomState1, exDomState2, makeDominanceKey, hb1, hb2, jsLeB]

/-- C10 counterexample: an underlying store error is not degraded to a
cache miss — apiCacheGet rejects with the error rather than resolving
null. -/
theorem apiCacheGet_rejects_on_store_error :
    apiCacheGet (.error DbError.unavailable) 0 = .error DbError.unavailable ∧
      apiCacheGet (.error DbError.unavailable) 0
        ≠ (.ok none : Except DbError (Option Json)) := by
  exact ⟨rfl, by simp [apiCacheGet]⟩

/-- C10 amended: underlying store errors are propagated to the caller as
rejections — apiCacheGet rejects with the store error (it resolves null
only on a missing or expired row), and apiCachePut rejects with the store
error. -/
theorem apiCache_errors_propagate (e : DbError) (nowMs : ℝ) :
    apiCacheGet (.error e) nowMs = .error e ∧ apiCachePut (.error e) = .error e :=
  ⟨rfl, rfl⟩

set_option maxRecDepth 8000 in
set_option maxHeartbeats 1000000 in
/-- C9: canonicalHash serializes with the replacer array
Object.keys(obj).sort(), which ECMA-262 applies as a key whitelist at
EVERY nesting depth — nested keys absent from the top level are dropped,
so two parameter objects differing only in a nested value serialize
identically (both to the string rendered here) and receive the same
sha256 digest, contradicting the recursive sorted-key serialization the
spec requires. -/
theorem canonicalHash_drops_nested_keys :
    canonicalParamsJson exParams1 = canonicalParamsJson exParams2 ∧
    canonicalParamsJson exParams1 = "\x7b\"a\":\x7b\x7d\x7d" ∧
    exParams1 ≠ exParams2 ∧
    (∀ sha256hex : String → String,
        canonicalHash sha256hex exParams1 = canonicalHash sha256hex exParams2) := by
  refine ⟨by decide, by decide, ?_, fun h => congrArg h (by decide)⟩
  simp [exParams1, exParams2]

/-- C2: a search whose sole origin node satisfies the destination
predicate pops it, records it as best (cost 0), and then — the frontier
being empty — falls through to the final return, which is hardcoded to
search_status NO_FEASIBLE_ROUTE with best_itinerary null (search.js lines
391-397): the recorded solution is discarded instead of being returned
with status OK. -/
theorem search_discards_best_on_frontier_exhaustion :
    searchItinerariesDoorToDoor [] emptyAdj exSoloSpec exSoloSpec defaultParams 0
        (fun _ => 0) (fun _ => 0)
      = .ok { search_status := .NO_FEASIBLE_ROUTE
              best_itinerary := none
              expansions := 1 } ∧
    SearchStatus.NO_FEASIBLE_ROUTE ≠ SearchStatus.OK := by
  refine ⟨?_, by decide⟩
  unfold searchItinerariesDoorToDoor
  norm_num [seedStates, exSoloSpec, isLooseNull, searchLoop, sortByGenCost, insertByCost,
    isDestination, jsIdEq, jsLtB, defaultParams, extractDestinationNodes, createState]

/-- One pair-step of addTransferEdges equals appending the pair-wise
contribution to the adjacency entry of the first node. -/
theorem pushTransferArcs_eq (now r : ℝ) (a : Node) (acc : ℤ → List Arc) (b : Node) :
    pushTransferArcs now r a acc b
      = fun j => if j = a.id then acc j ++ pairTransferArcs now r a b else acc j := by
  funext j
  unfold pushTransferArcs pairTransferArcs
  by_cases h1 : a.id = b.id
  · by_cases hj : j = a.id <;> simp [h1, hj]
  · by_cases h2 : distApprox a b > r
    · by_cases hj : j = a.id <;> simp [h1, h2, hj]
    · by_cases hj : j = a.id <;> simp [h1, h2, hj, List.append_assoc]

/-- The inner loop of addTransferEdges over the pair partner list appends
exactly the per-pair contributions, in list order, to the entry of the
outer node, and touches no other entry. -/
theorem innerFold_apply (now r : ℝ) (a : Node) :
    ∀ (bs : List Node) (acc : ℤ → List Arc) (j : ℤ),
      (bs.foldl (pushTransferArcs now r a) acc) j
        = if j = a.id then acc j ++ bs.flatMap (pairTransferArcs now r a) else acc j := by
  intro bs
  induction bs with
  | nil => intro acc j; by_cases hj : j = a.id <;> simp [hj]
  | cons b bs ih =>
    intro acc j
    simp only [List.foldl_cons, List.flatMap_cons]
    rw [ih, pushTransferArcs_eq]
    by_cases hj : j = a.id
    · simp [hj, List.append_assoc]
    · simp [hj]

/-- Outer iterations of addTransferEdges over nodes whose ids differ from
`t` leave the adjacency entry of `t` unchanged. -/
theorem outerFold_preserve (now r : ℝ) (nodes : List Node) :
    ∀ (as : List Node) (acc : ℤ → List Arc) (t : ℤ), (∀ x ∈ as, x.id ≠ t) →
      (as.foldl (fun acc a => nodes.foldl (pushTransferArcs now r a) acc) acc) t = acc t := by
  intro as
  induction as with
  | nil => intro acc t _; rfl
  | cons x xs ih =>
    intro acc t h
    simp only [List.foldl_cons]
    rw [ih _ _ (fun y hy => h y (List.mem_cons_of_mem _ hy))]
    rw [innerFold_apply]
    exact if_neg (fun ht => h x (List.mem_cons_self _ _) ht.symm)

/-- The outer fold of addTransferEdges, applied at the id of a member node
(under pairwise distinct ids), appends exactly the per-pair contributions
against every node of the inner list. -/
theorem addTransferEdges_outer_apply (now r : ℝ) (nodes : List Node) (a : Node) :
    ∀ (as : List Node) (acc : ℤ → List Arc), a ∈ as → (as.map Node.id).Nodup →
      (as.foldl (fun acc x => nodes.foldl (pushTransferArcs now r x) acc) acc) a.id
        = acc a.id ++ nodes.flatMap (pairTransferArcs now r a) := by
  intro as
  induction as with
  | nil => intro acc h _; exact absurd h (List.not_mem_nil _)
  | cons x xs ih =>
    intro acc hmem hnd
    simp only [List.map_cons, List.nodup_cons] at hnd
    obtain ⟨hx, hxs⟩ := hnd
    simp only [List.foldl_cons]
    rcases List.mem_cons.mp hmem with hax | hax
    · subst hax
      rw [outerFold_preserve now r nodes xs _ a.id
        (fun y hy hyid => hx (hyid ▸ List.mem_map_of_mem Node.id hy))]
      rw [innerFold_apply]
      simp
    · have hxa : x.id ≠ a.id := fun h => hx (h ▸ List.mem_map_of_mem Node.id hax)
      rw [ih _ hax hxs, innerFold_apply, if_neg (fun h => hxa h.symm)]

/-- The approximate planar distance between the example nodes is
0.027 * 111 = 2.997 km — inside the default 3 km transfer radius. -/
theorem distApprox_exA_exB : distApprox exA exB = 2.997 := by
  unfold distApprox exA exB
  norm_num
  rw [show (729 : ℝ) = 27 * 27 by norm_num,
    Real.sqrt_mul_self (by norm_num : (0 : ℝ) ≤ 27),
    show (1000000 : ℝ) = 1000 * 1000 by norm_num,
    Real.sqrt_mul_self (by norm_num : (0 : ℝ) ≤ 1000)]
  norm_num

/-- The example adjacency at node 1: exactly the three transfer arcs
towards node 2 (walk, rideshare, shuttle), in push order. -/
theorem exAdj_one :
    exAdj 1 = [generateWalkTransfer exA exB 0,
               generateRideshareTransfer exA exB defaultRideshareModel 0,
               generateShuttleTransfer exA exB shuttleDefaults 0] := by
  have hnd : (exNodes.map Node.id).Nodup := by
    simp [exNodes, exA, exB]
  have h := addTransferEdges_outer_apply 0 3 exNodes exA exNodes (fun _ => [])
    (by simp [exNodes]) hnd
  have hid : exA.id = 1 := rfl
  rw [hid] at h
  show addTransferEdges 0 exNodes (fun _ => []) 3 1 = _
  unfold addTransferEdges
  rw [h]
  simp only [List.nil_append, exNodes, List.flatMap_cons, List.flatMap_nil]
  rw [show pairTransferArcs 0 3 exA exA = [] by simp [pairTransferArcs]]
  rw [show pairTransferArcs 0 3 exA exB
      = [generateWalkTransfer exA exB 0,
         generateRideshareTransfer exA exB defaultRideshareModel 0,
         generateShuttleTransfer exA exB shuttleDefaults 0] by
    unfold pairTransferArcs
    rw [if_neg (by norm_num [exA, exB] : ¬ (exA.id = exB.id)),
      if_neg (by rw [distApprox_exA_exB]; norm_num)]]
  simp

/-- With no best cost recorded yet, shouldPrune reaches the detour block
and throws on the `origin` read whenever its input lacks that property —
which is the case for every state the search constructs. -/
theorem shouldPrune_error_of_no_origin (pin : PruneInput) (leg : Arc) (d : Node)
    (params : Params) (ho : pin.origin = none) :
    shouldPrune pin leg none (some d) params = .error .typeError := by
  simp [shouldPrune, ho]

/-- Looking node 2 up in the example node map yields node B. -/
theorem nodeByIdGet_exNodes_two : nodeByIdGet exNodes (JsId.num 2) = some exB := by
  simp [nodeByIdGet, exNodes, exA, exB, List.find?]

/-- With no best cost recorded, expanding any nonempty outgoing list
throws: the first shouldPrune call faults on the missing `origin`
property of the search state. -/
theorem processLegs_error_of_unset_origin (env : SearchEnv) (s : SearchState)
    (leg : Arc) (rest : List Arc) (dom : DomMap) (dn : SpecNode) (ds : List SpecNode)
    (d : Node) (hdn : env.destSpec.nodes = dn :: ds)
    (hfind : nodeByIdGet env.nodes dn.id = some d) :
    processLegs env s none (leg :: rest) dom = .error .typeError := by
  simp only [processLegs, extractDestinationNodes, hdn, hfind]
  rw [shouldPrune_error_of_no_origin s.asPruneInput leg d env.params rfl]

/-- C1: the search is not total — on the assembled two-node example graph
(whose only arcs are the three synthesized transfers from node 1 to node
2), the very first expansion calls shouldPrune, whose detour step
dereferences `partial.origin.lat`; search states carry no `origin`
property (createState never sets one), so the search throws a TypeError
instead of returning a bundle with one of the three search statuses. -/
theorem searchItinerariesDoorToDoor_throws :
    searchItinerariesDoorToDoor exNodes exAdj exOriginSpec exDestSpec defaultParams 0
        (fun _ => 0) (fun _ => 0) = .error JsError.typeError := by
  unfold searchItinerariesDoorToDoor
  rw [searchLoop.eq_def]
  norm_num [seedStates, exOriginSpec, exDestSpec, isLooseNull, sortByGenCost,
    insertByCost, isDestination, jsIdEq, defaultParams, createState, adjLookup,
    exAdj_one]
  rw [processLegs_error_of_unset_origin _ _ _ _ _ _ _ exB rfl nodeByIdGet_exNodes_two]

/-- C5 counterexample: with maxExpansions = 0, a search whose single
origin node (not a destination) has an empty adjacency still pops and
expands that state — the budget guard is `expansions > maxExpansions`, a
strict comparison checked before each pop — and then, the frontier having
emptied, returns NO_FEASIBLE_ROUTE with expansions = 1, not
TIME_BUDGET_EXHAUSTED with no state expanded. -/
theorem search_zero_budget_not_always_exhausted :
    searchItinerariesDoorToDoor [] emptyAdj exOriginSpec exAddrDest zeroExpParams 0
        (fun _ => 0) (fun _ => 0)
      = .ok { search_status := .NO_FEASIBLE_ROUTE
              best_itinerary := none
              expansions := 1 } ∧
    SearchStatus.NO_FEASIBLE_ROUTE ≠ SearchStatus.TIME_BUDGET_EXHAUSTED := by
  refine ⟨?_, by decide⟩
  unfold searchItinerariesDoorToDoor
  norm_num [seedStates, exOriginSpec, exAddrDest, isLooseNull, searchLoop, sortByGenCost,
    insertByCost, isDestination, jsIdEq, zeroExpParams, defaultParams, createState,
    adjLookup, emptyAdj]

/-- C5 amended: with maxExpansions = 0 the budget check does run before
each pop, but its strict comparison (`expansions > maxExpansions`) lets
exactly one state through: for every graph, any two-origin search (with
numeric origin ids, a destination address matching neither popped node,
an empty adjacency at the first origin, and a non-negative timeout not
yet elapsed) expands one state and only then returns
TIME_BUDGET_EXHAUSTED with a null best state and expansions = 1. -/
theorem search_zero_budget_one_expansion (nodes : List Node) (adj : ℤ → List Arc)
    (originSpec destSpec : PlaceSpec) (p : Params) (now : ℝ) (randIds : ℕ → ℤ)
    (o1 o2 : SpecNode) (i1 i2 : ℤ)
    (horig : originSpec.nodes = [o1, o2])
    (h1 : o1.id = JsId.num i1) (h2 : o2.id = JsId.num i2)
    (hdest : destSpec.isAddress = true)
    (dn : SpecNode) (hdn : destSpec.nodes = [dn]) (hne : dn.id ≠ JsId.num i1)
    (hadj : adj i1 = [])
    (hmax : p.maxExpansions = 0) (htime : 0 ≤ p.timeoutMs) :
    searchItinerariesDoorToDoor nodes adj originSpec destSpec p now (fun _ => 0) randIds
      = .ok { search_status := .TIME_BUDGET_EXHAUSTED
              best_itinerary := none
              expansions := 1 } := by
  have ht : ¬ ((0 : ℝ) > p.timeoutMs) := not_lt.mpr htime
  have hjs : jsIdEq (JsId.num i1) dn.id = false := by
    simp [jsIdEq]
    exact fun h => hne h.symm
  unfold searchItinerariesDoorToDoor
  rw [horig]
  norm_num [seedStates, h1, h2, isLooseNull, searchLoop, sortByGenCost, insertByCost,
    jsLeB, isDestination, hdest, hdn, hjs, adjLookup, hadj, hmax, createState, ht]

/-- Witness for the zero-budget theorem at a concrete two-origin search. -/
theorem search_zero_budget_one_expansion_witness :
    searchItinerariesDoorToDoor [] emptyAdj exTwoOriginSpec exAddrDest zeroExpParams 0
        (fun _ => 0) (fun _ => 0)
      = .ok { search_status := .TIME_BUDGET_EXHAUSTED
              best_itinerary := none
              expansions := 1 } :=
  search_zero_budget_one_expansion [] emptyAdj exTwoOriginSpec exAddrDest zeroExpParams 0
    (fun _ => 0) { id := JsId.num 1, lat := 0, lon := 0 }
    { id := JsId.num 2, lat := 0, lon := 0 } 1 2 rfl rfl rfl rfl
    { id := JsId.num 9, lat := 0, lon := 0 } rfl (by decide) rfl rfl
    (by norm_num [zeroExpParams, defaultParams])

/-- The haversine distance between the example nodes (0.027 degrees of
latitude apart) is 6371 * 0.027 * pi / 180, which exceeds 3 km — although
their planar approximate distance 2.997 km is inside the 3 km radius. -/
theorem haversine_exA_exB_gt_three : haversine 0 0 0.027 0 > 3 := by
  unfold haversine
  simp only [sub_zero, sub_self, zero_mul, zero_div, Real.sin_zero, ne_eq,
    OfNat.ofNat_ne_zero, not_false_eq_true, zero_pow, mul_zero, add_zero]
  set x : ℝ := 0.027 * Real.pi / 180 / 2 with hxdef
  have hx_pos : 0 < x := by rw [hxdef]; positivity
  have hx_lt : x < Real.pi / 2 := by rw [hxdef]; linarith [Real.pi_pos]
  have hx_neg : -(Real.pi / 2) < x := by linarith [Real.pi_pos]
  have hx_le_pi : x ≤ Real.pi := by linarith [Real.pi_pos]
  have hsin_nonneg : 0 ≤ Real.sin x :=
    Real.sin_nonneg_of_nonneg_of_le_pi hx_pos.le hx_le_pi
  have hcos_pos : 0 < Real.cos x := Real.cos_pos_of_mem_Ioo ⟨hx_neg, hx_lt⟩
  have h1a : 1 - Real.sin x ^ 2 = Real.cos x ^ 2 := by
    have := Real.sin_sq_add_cos_sq x
    linarith
  rw [Real.sqrt_sq hsin_nonneg, h1a, Real.sqrt_sq hcos_pos.le]
  unfold atan2
  rw [if_pos hcos_pos, ← Real.tan_eq_sin_div_cos, Real.arctan_tan hx_neg hx_lt, hxdef]
  linarith [Real.pi_gt_d2]

/-- C6 counterexample: the ordered pair (node 1, node 2) of the example
graph has haversine distance strictly greater than the 3 km radius, yet
addTransferEdges appends three synthesized arcs to the adjacency entry of
node 1 — the gate is the planar approximation, not haversine. -/
theorem addTransferEdges_appends_beyond_haversine_radius :
    haversine exA.lat exA.lon exB.lat exB.lon > 3 ∧ (exAdj exA.id).length = 3 := by
  constructor
  · exact haversine_exA_exB_gt_three
  · rw [show exA.id = (1 : ℤ) from rfl, exAdj_one]
    rfl

/-- C6 amended: during graph assembly the transfer gate is the planar
approximation sqrt((dlat)^2 + (dlon)^2) * 111, not haversine: for nodes
with pairwise distinct ids, the adjacency entry of a member node `a`
receives, appended in pair order, exactly three synthesized timed arcs
(walk, rideshare, shuttle) for every ordered pair (a, b) with distinct
ids and approximate distance within the radius, and none for every other
pair. -/
theorem addTransferEdges_planar_gate (now r : ℝ) (nodes : List Node)
    (adj : ℤ → List Arc) (a : Node) (ha : a ∈ nodes)
    (hnd : (nodes.map Node.id).Nodup) :
    addTransferEdges now nodes adj r a.id
      = adj a.id ++ nodes.flatMap (pairTransferArcs now r a) ∧
    ∀ b : Node, (pairTransferArcs now r a b).length
      = if a.id ≠ b.id ∧ distApprox a b ≤ r then 3 else 0 := by
  constructor
  · exact addTransferEdges_outer_apply now r nodes a nodes adj ha hnd
  · intro b
    by_cases h1 : a.id = b.id
    · simp [pairTransferArcs, h1]
    · by_cases h2 : distApprox a b > r
      · simp [pairTransferArcs, h1, h2, not_le.mpr h2]
      · simp [pairTransferArcs, h1, h2, not_lt.mp h2]

/-- Witness for the planar-gate theorem on the example graph, with the
per-pair count instantiated at the pair (node 1, node 2). -/
theorem addTransferEdges_planar_gate_witness :
    addTransferEdges 0 exNodes (fun _ => []) 3 exA.id
      = (fun _ => ([] : List Arc)) exA.id ++ exNodes.flatMap (pairTransferArcs 0 3 exA) ∧
    (pairTransferArcs 0 3 exA exB).length
      = if exA.id ≠ exB.id ∧ distApprox exA exB ≤ 3 then 3 else 0 := by
  have h := addTransferEdges_planar_gate 0 3 exNodes (fun _ => []) exA
    (by simp [exNodes]) (by simp [exNodes, exA, exB])
  exact ⟨h.1, h.2 exB⟩

/-- The square-root-of-sum-of-squares is the complex absolute value. -/
theorem sqrt_mul_self_add_eq_abs (x y : ℝ) :
    Real.sqrt (x * x + y * y) = Complex.abs ⟨x, y⟩ := by
  rw [Complex.abs_apply, Complex.normSq_mk]

/-- Triangle inequality for the planar approximate distance. -/
theorem approxDistKm_triangle (p q r : ℝ × ℝ) :
    approxDistKm p q ≤ approxDistKm p r + approxDistKm r q := by
  unfold approxDistKm
  rw [sqrt_mul_self_add_eq_abs, sqrt_mul_self_add_eq_abs, sqrt_mul_self_add_eq_abs]
  have h : (⟨p.1 - q.1, p.2 - q.2⟩ : ℂ)
      = (⟨p.1 - r.1, p.2 - r.2⟩ : ℂ) + (⟨r.1 - q.1, r.2 - q.2⟩ : ℂ) := by
    apply Complex.ext <;> simp
  rw [h]
  have habs := Complex.abs.add_le (⟨p.1 - r.1, p.2 - r.2⟩ : ℂ) (⟨r.1 - q.1, r.2 - q.2⟩ : ℂ)
  nlinarith [habs]

/-- On genuine node objects the lower bound evaluates to
timeValuePerHour * (approximate distance / 700). -/
theorem estimateLowerBound_nodes (u d : Node) (params : Params) :
    estimateLowerBound u.toGeoObj d.toGeoObj params
      = some (params.timeValuePerHour
          * (approxDistKm (u.lat, u.lon) (d.lat, d.lon) / 700)) := by
  have hnn : (0 : ℝ)
      ≤ (u.lat - d.lat) * (u.lat - d.lat) + (u.lon - d.lon) * (u.lon - d.lon) :=
    add_nonneg (mul_self_nonneg _) (mul_self_nonneg _)
  simp [estimateLowerBound, Node.toGeoObj, jsSub, jsMul, jsAdd, jsDiv, jsSqrt,
    approxDistKm, hnn]

/-- Unfolding of the path cost at a cons. -/
theorem pathCostR_cons (params : Params) (l : Arc) (ls : List Arc) :
    pathCostR params (l :: ls) = legCostR params l + pathCostR params ls := by
  simp [pathCostR]

/-- The computeLegGeneralizedCost fold from numeric accumulators computes
the real path cost (the transfer count component stays numeric as well). -/
theorem pathGenCost_fold (params : Params) :
    ∀ (legs : List Arc) (g n : ℝ), ∃ m : ℝ,
      (legs.foldl
        (fun acc leg =>
          let r := computeLegGeneralizedCost
            { genCostSoFar := acc.1, transfersSoFar := acc.2, arrivalTimeUtc := none }
            leg params
          ((r.newGenCost, r.newTransfers) : JsNum × JsNum))
        ((some g : JsNum), (some n : JsNum)))
        = (some (g + pathCostR params legs), some m) := by
  intro legs
  induction legs with
  | nil => intro g n; exact ⟨n, by simp [pathCostR]⟩
  | cons l ls ih =>
    intro g n
    simp only [List.foldl_cons]
    have hstep :
        (let r := computeLegGeneralizedCost
            { genCostSoFar := some g, transfersSoFar := some n, arrivalTimeUtc := none }
            l params
         ((r.newGenCost, r.newTransfers) : JsNum × JsNum))
        = (some (g + legCostR params l),
           some (n + (if l.edge_leg.is_transfer = 1 then (1 : ℝ) else 0))) := by
      simp [computeLegGeneralizedCost, legCostR]
      ring
    rw [hstep]
    obtain ⟨m, hm⟩ := ih (g + legCostR params l)
      (n + (if l.edge_leg.is_transfer = 1 then (1 : ℝ) else 0))
    refine ⟨m, ?_⟩
    rw [hm, pathCostR_cons]
    rw [add_assoc]

/-- pathGenCost computes the real path cost. -/
theorem pathGenCost_eq (params : Params) (legs : List Arc) :
    pathGenCost params legs = some (pathCostR params legs) := by
  obtain ⟨m, hm⟩ := pathGenCost_fold params legs 0 0
  unfold pathGenCost
  rw [hm]
  simp

/-- Core admissibility bound: along any chained path whose every leg
covers its planar approximate distance at an effective speed of at most
700 km/h, the lower-bound quantity from the start of the path never exceeds
the accumulated generalized cost (given non-negative value of time,
transfer penalty, risk penalty and prices). -/
theorem lb_le_pathCostR (adj : ℤ → List Arc) (c : ℤ → ℝ × ℝ) (params : Params)
    (htv : 0 ≤ params.timeValuePerHour) (hpen : 0 ≤ params.transferPenalty)
    (hrisk : 0 ≤ params.riskPenalty) (dId : ℤ) :
    ∀ (legs : List Arc) (i : ℤ), IsPath adj i legs dId →
      (∀ l ∈ legs, 0 ≤ l.offer.price_total.getD 0) →
      (∀ l ∈ legs, ∀ a b : ℤ, l.edge_leg.from_node_id = some a →
          l.edge_leg.to_node_id = some b →
          approxDistKm (c a) (c b)
            ≤ 700 * (minutesBetween l.offer.departure_time_utc
                l.offer.arrival_time_utc / 60)) →
      params.timeValuePerHour * (approxDistKm (c i) (c dId) / 700)
        ≤ pathCostR params legs := by
  intro legs
  induction legs with
  | nil =>
    intro i hpath _ _
    have hi : i = dId := hpath
    subst hi
    have hz : approxDistKm (c i) (c i) = 0 := by
      unfold approxDistKm
      simp
    rw [hz]
    simp [pathCostR]
  | cons l ls ih =>
    intro i hpath hcash hspeed
    obtain ⟨hmem, hfrom, hrest⟩ := hpath
    cases hto : l.edge_leg.to_node_id with
    | none => rw [hto] at hrest; exact absurd hrest (by simp)
    | some w =>
      rw [hto] at hrest
      have htri := approxDistKm_triangle (c i) (c dId) (c w)
      have hsp := hspeed l (List.mem_cons_self _ _) i w hfrom hto
      have hih := ih w hrest (fun l2 h2 => hcash l2 (List.mem_cons_of_mem _ h2))
        (fun l2 h2 => hspeed l2 (List.mem_cons_of_mem _ h2))
      have hc0 := hcash l (List.mem_cons_self _ _)
      rw [pathCostR_cons]
      have hleg : params.timeValuePerHour *
          (minutesBetween l.offer.departure_time_utc l.offer.arrival_time_utc / 60)
          ≤ legCostR params l := by
        have hpc : (0 : ℝ)
            ≤ (if l.edge_leg.is_transfer = 1 then params.transferPenalty else 0) := by
          split
          · exact hpen
          · exact le_rfl
        unfold legCostR
        linarith
      have htri2 := mul_le_mul_of_nonneg_left htri htv
      have hsp2 := mul_le_mul_of_nonneg_left hsp htv
      nlinarith [htri2, hsp2, hih, hleg]

/-- The planar approximate distance from (0,0) to (1,0) is 111 km. -/
theorem approxDistKm_unit : approxDistKm ((0 : ℝ), (0 : ℝ)) ((1 : ℝ), (0 : ℝ)) = 111 := by
  unfold approxDistKm
  norm_num

/-- The lower bound from node 1 at (0,0) towards node 2 at (1,0) under
default parameters: 20 * (111 / 700) = 111 / 35. -/
theorem exLb_eval :
    estimateLowerBound exA.toGeoObj exLbD.toGeoObj defaultParams = some (111 / 35) := by
  rw [estimateLowerBound_nodes]
  rw [show (exA.lat, exA.lon) = ((0 : ℝ), (0 : ℝ)) from rfl,
    show (exLbD.lat, exLbD.lon) = ((1 : ℝ), (0 : ℝ)) from rfl,
    approxDistKm_unit]
  norm_num [defaultParams]

/-- C3 counterexample: a one-leg route from node 1 at (0,0) to node 2 at
(1,0) (about 111 km) with a one-minute, zero-price offer has generalized
cost 20 * (1/60) = 1/3, strictly below the lower bound
estimateLowerBound = 20 * (111/700) = 111/35 — the bound exceeds the true
remaining optimal cost, so it is not admissible. -/
theorem estimateLowerBound_not_admissible :
    IsPath exFastAdj 1 [exFastArc] 2 ∧
    estimateLowerBound exA.toGeoObj exLbD.toGeoObj defaultParams = some (111 / 35) ∧
    pathGenCost defaultParams [exFastArc] = some (1 / 3) ∧
    ¬ ((111 : ℝ) / 35 ≤ 1 / 3) := by
  refine ⟨⟨by simp [exFastAdj], rfl, rfl⟩, exLb_eval, ?_, by norm_num⟩
  rw [pathGenCost_eq]
  norm_num [pathCostR, legCostR, exFastArc, exFastOffer, exFlightEdge, minutesBetween,
    defaultParams]

/-- C3 amended: the lower bound is admissible under a speed cap the code
itself does not enforce — along every chained path from u to d whose legs
each cover the planar approximate distance between their endpoints at an
effective speed of at most 700 km/h, and with non-negative value of time,
penalties and prices, estimateLowerBound(u, d, params) never exceeds the
generalized cost of the path. -/
theorem estimateLowerBound_admissible (adj : ℤ → List Arc) (c : ℤ → ℝ × ℝ)
    (params : Params) (htv : 0 ≤ params.timeValuePerHour)
    (hpen : 0 ≤ params.transferPenalty) (hrisk : 0 ≤ params.riskPenalty)
    (u d : Node) (hu : (u.lat, u.lon) = c u.id) (hd : (d.lat, d.lon) = c d.id)
    (legs : List Arc) (hpath : IsPath adj u.id legs d.id)
    (hcash : ∀ l ∈ legs, 0 ≤ l.offer.price_total.getD 0)
    (hspeed : ∀ l ∈ legs, ∀ a b : ℤ, l.edge_leg.from_node_id = some a →
        l.edge_leg.to_node_id = some b →
        approxDistKm (c a) (c b)
          ≤ 700 * (minutesBetween l.offer.departure_time_utc
              l.offer.arrival_time_utc / 60))
    (lbv cv : ℝ)
    (hlb : estimateLowerBound u.toGeoObj d.toGeoObj params = some lbv)
    (hcost : pathGenCost params legs = some cv) :
    lbv ≤ cv := by
  rw [estimateLowerBound_nodes] at hlb
  rw [pathGenCost_eq] at hcost
  have hlb2 := Option.some.inj hlb
  have hcost2 := Option.some.inj hcost
  rw [← hlb2, ← hcost2, hu, hd]
  exact lb_le_pathCostR adj c params htv hpen hrisk d.id legs u.id hpath hcash hspeed

/-- Witness for the admissibility theorem: the same corridor with a
one-hour offer (111 km at 111 km/h, within the 700 km/h cap) has cost 20,
above the bound 111/35. -/
theorem estimateLowerBound_admissible_witness :
    (111 : ℝ) / 35 ≤ 20 ∧ pathGenCost defaultParams [exSlowArc] = some 20 := by
  have hcost : pathGenCost defaultParams [exSlowArc] = some 20 := by
    rw [pathGenCost_eq]
    norm_num [pathCostR, legCostR, exSlowArc, exSlowOffer, exFlightEdge, minutesBetween,
      defaultParams]
  refine ⟨estimateLowerBound_admissible exSlowAdj exCoords defaultParams
    (by norm_num [defaultParams]) (by norm_num [defaultParams])
    (by norm_num [defaultParams]) exA exLbD (by simp [exA, exCoords])
    (by simp [exLbD, exCoords]) [exSlowArc] ⟨by simp [exSlowAdj, exA], rfl, rfl⟩
    ?_ ?_ (111 / 35) 20 exLb_eval hcost, hcost⟩
  · intro l hl
    rw [List.mem_singleton.mp hl]
    norm_num [exSlowArc, exSlowOffer]
  · intro l hl a b hfa hfb
    rw [List.mem_singleton.mp hl] at hfa hfb
    have ha : a = 1 := by
      have := hfa
      simp [exSlowArc, exFlightEdge] at this
      omega
    have hb : b = 2 := by
      have := hfb
      simp [exSlowArc, exFlightEdge] at this
      omega
    subst ha
    subst hb
    rw [List.mem_singleton.mp hl]
    rw [show exCoords 1 = ((0 : ℝ), (0 : ℝ)) by simp [exCoords],
      show exCoords 2 = ((1 : ℝ), (0 : ℝ)) by simp [exCoords], approxDistKm_unit]
    norm_num [exSlowArc, exSlowOffer, minutesBetween]
